import Mathlib

/-
Verification of the agent-teamchat plugin core.

Shallow embedding of the repository's message cache (task-board.js,
MessageCache section), task board (TaskBoard section), cycle rate
limiter and session-key validation (state.js).  File-system effects
are modelled by explicit state passing: the on-disk message log is a
`List Message`, the watermark JSON object an association list, and the
outcome of `withFileLock` (lock acquired and the locked operation
succeeded) is an explicit boolean input, since the code only ever
observes that single bit.
-/

namespace TeamChat

/-- Model of JS string operations used by the source: a whitespace
character as recognised by `String.prototype.trim`. -/
def isWsChar (c : Char) : Bool :=
  c = ' ' || c = '\t' || c = '\n' || c = '\r'

/-- Drop leading whitespace characters. -/
def dropWs (l : List Char) : List Char := l.dropWhile isWsChar

/-- Trim both ends of a character list: drop leading whitespace, then
drop trailing whitespace via a double reverse. -/
def trimChars (l : List Char) : List Char :=
  (dropWs ((dropWs l).reverse)).reverse

/-- Model of `asString` from utils.js: non-strings become "", strings
are trimmed (JS `value.trim()`). -/
def asString (s : String) : String :=
  String.mk (trimChars s.data)

/-- Model of JS `String.prototype.startsWith` on character lists. -/
def charsStartWith : List Char → List Char → Bool
  | _, [] => true
  | [], _ :: _ => false
  | c :: cs, p :: ps => c = p && charsStartWith cs ps

/-- Model of JS `String.prototype.includes` on character lists. -/
def charsContain : List Char → List Char → Bool
  | [], sub => charsStartWith [] sub
  | c :: cs, sub => charsStartWith (c :: cs) sub || charsContain cs sub

/-- JS `s.includes(sub)`. -/
def jsIncludes (s sub : String) : Bool := charsContain s.data sub.data

/-- JS `s.startsWith(p)`. -/
def jsStartsWith (s p : String) : Bool := charsStartWith s.data p.data

/-- ASCII lower-casing of one character (JS `toLowerCase` on the
ASCII identifiers and keys this plugin compares). -/
def lowerChar (c : Char) : Char :=
  if 'A' ≤ c ∧ c ≤ 'Z' then Char.ofNat (c.toNat + 32) else c

/-- JS `s.toLowerCase()`. -/
def lowerStr (s : String) : String := String.mk (s.data.map lowerChar)

/-- JS `asString(s) || d`: the trimmed string, or the default when it
is empty. -/
def strOrDefault (s d : String) : String :=
  if asString s = "" then d else asString s

/-- JS `Number(v) || d` where `v` is an optional numeric input:
`none` models a non-numeric value (`Number(...)` gives `NaN`), and a
numeric `0` is falsy, so both fall back to the default. -/
def numOr (v : Option Int) (d : Int) : Int :=
  match v with
  | none => d
  | some t => if t = 0 then d else t

/-- JS `arr.slice(-n)`: the last `n` elements. -/
def lastN {α : Type} (n : Nat) (l : List α) : List α :=
  l.drop (l.length - n)

/-- Lookup in a JS object viewed as an insertion-ordered association
list (`obj[key]`). -/
def assocGet {β : Type} : List (String × β) → String → Option β
  | [], _ => none
  | (k, v) :: rest, a => if k = a then some v else assocGet rest a

/-- JS object property assignment `obj[key] = v`: overwrite in place
when present, append otherwise. -/
def assocSet {β : Type} : List (String × β) → String → β → List (String × β)
  | [], a, v => [(a, v)]
  | (k, w) :: rest, a, v =>
      if k = a then (a, v) :: rest else (k, w) :: assocSet rest a v

/-- JS `delete obj[key]`. -/
def assocDel {β : Type} : List (String × β) → String → List (String × β)
  | [], _ => []
  | (k, w) :: rest, a => if k = a then rest else (k, w) :: assocDel rest a

-- ─── Message cache (task-board.js, MessageCache section) ───

/-- A message record as appended to `messages.jsonl`. -/
structure Message where
  id : String
  ts : Int
  sender : String
  senderId : String
  sourceAgent : String
  content : String
  mentions : List String
  type : String
deriving DecidableEq

/-- One agent's read watermark in `watermarks.json`. -/
structure Watermark where
  lastReadId : String
  lastReadTs : Int
deriving DecidableEq

/-- The `watermarks.json` object: agent id → watermark. -/
abbrev Watermarks := List (String × Watermark)

/-- The draft passed to `appendMessage` (`params`); absent fields are
the empty string, `ts := none` models an absent or non-numeric value. -/
structure MsgDraft where
  id : String := ""
  ts : Option Int := none
  sender : String := ""
  senderId : String := ""
  sourceAgent : String := ""
  content : String := ""
  mentions : List String := []
  type : String := ""

/-- Ambient process inputs to `appendMessage`: the wall clock, the
post-increment value of the module-global `_seqCounter`, the random
suffix drawn inside `generateMessageId`, and whether the exclusive
write lock was acquired and the file append succeeded. -/
structure AppendEnv where
  now : Int
  seq : Nat
  rand : String
  lockOk : Bool

/-- The guard in `appendMessage` that rejects system/memory injection
blocks: trimmed content containing either reserved marker. -/
def hasInjectionMarker (content : String) : Bool :=
  jsIncludes content "[UNTRUSTED DATA" || jsIncludes content "<relevant-memories>"

/-- JS `String(n).padStart(5, "0")`. -/
def padStart5 (n : Nat) : String :=
  let s := toString n
  if s.length ≥ 5 then s else String.mk (List.replicate (5 - s.length) '0') ++ s

/-- Model of `generateMessageId(ts)`: `m_<stamp>_<seq>_<rand>` where the stamp
falls back to the clock when `ts` is `0` and the counter wraps at
100000. -/
def generateMessageId (ts now : Int) (seq : Nat) (rand : String) : String :=
  let stamp := toString (if ts = 0 then now else ts)
  "m_" ++ stamp ++ "_" ++ padStart5 ((seq + 1) % 100000) ++ "_" ++ rand

/-- The record constructed by `appendMessage` once the draft passed
the guards; it depends on the clock, counter and random suffix but
not on the lock outcome. -/
def buildRecord (p : MsgDraft) (now : Int) (seq : Nat) (rand : String) : Message :=
  let ts := numOr p.ts now
  { id := if asString p.id = "" then generateMessageId ts now seq rand
          else asString p.id
    ts := ts
    sender := strOrDefault p.sender "unknown"
    senderId := asString p.senderId
    sourceAgent := asString p.sourceAgent
    content := asString p.content
    mentions := p.mentions.filter (fun m => m ≠ "")
    type := strOrDefault p.type "message" }

/-- Model of `MessageCache.appendMessage`: returns the generated record (or
`null`) together with the resulting on-disk log; the append reaches
the log only when the write lock was acquired. -/
def appendMessage (log : List Message) (roomId : String) (p : MsgDraft)
    (env : AppendEnv) : Option Message × List Message :=
  if roomId = "" then (none, log)
  else if hasInjectionMarker (asString p.content) then (none, log)
  else
    let record := buildRecord p env.now env.seq env.rand
    (some record, if env.lockOk then log ++ [record] else log)

/-- Model of `MessageCache.getUnreadMessages`: start index from the agent's
watermark (id match first, strict timestamp fallback), then drop the
agent's own messages. -/
def getUnreadMessages (log : List Message) (wms : Watermarks)
    (roomId agentId : String) : List Message :=
  if roomId = "" ∨ agentId = "" then []
  else
    let agentWatermark := assocGet wms agentId
    let lastReadTs : Int := (agentWatermark.map (fun w => w.lastReadTs)).getD 0
    let lastReadId : String := (agentWatermark.map (fun w => w.lastReadId)).getD ""
    let tsIdx :=
      match log.findIdx? (fun m => m.ts > lastReadTs) with
      | some i => i
      | none => log.length
    let startIdx :=
      if lastReadId ≠ "" then
        match log.findIdx? (fun m => m.id = lastReadId) with
        | some idx => idx + 1
        | none => if lastReadTs > 0 then tsIdx else 0
      else if lastReadTs > 0 then tsIdx
      else 0
    (log.drop startIdx).filter (fun m => m.sourceAgent ≠ agentId)

/-- Model of `MessageCache.markAsRead`: advance the agent's watermark; keeps
the previous `lastReadId` when the supplied one trims to empty, and
falls back to the clock when `Number(upToTs)` is falsy.  The update
reaches `watermarks.json` only when the watermark lock was acquired. -/
def markAsRead (wms : Watermarks) (roomId agentId : String)
    (upToMessageId : String) (upToTs : Option Int) (now : Int)
    (lockOk : Bool) : Watermarks :=
  if roomId = "" ∨ agentId = "" then wms
  else if lockOk then
    let prev := assocGet wms agentId
    let newId :=
      if asString upToMessageId = "" then (prev.map (fun w => w.lastReadId)).getD ""
      else asString upToMessageId
    assocSet wms agentId { lastReadId := newId, lastReadTs := numOr upToTs now }
  else wms

/-- MessageCache construction options that `cleanup` reads. -/
structure CacheCfg where
  cleanupTtlMs : Int
  compactThreshold : Nat
deriving DecidableEq

/-- One member's contribution to the minimum watermark scan in
`cleanup`: `none` when the agent has no watermark or a falsy
`lastReadTs` (the loop then breaks with `minReadTs = 0` and the
caller aborts). -/
def memberTs (wms : Watermarks) (a : String) : Option Int :=
  match assocGet wms a with
  | none => none
  | some wm => if wm.lastReadTs = 0 then none else some wm.lastReadTs

/-- The minimum `lastReadTs` across the member agents, `none` when
any member is missing one.  The source's loop starts from `Infinity`
and breaks early on a missing watermark; over a non-empty member list
the result is the same. -/
def minWatermark (wms : Watermarks) : List String → Option Int
  | [] => none
  | [a] => memberTs wms a
  | a :: b :: rest =>
      match memberTs wms a, minWatermark wms (b :: rest) with
      | some t, some m => some (min t m)
      | _, _ => none

/-- Model of `MessageCache.cleanup`: below the compaction threshold, or when
any member agent has never read, the log is untouched; otherwise the
log is rewritten (under the compact lock) to the messages with
`ts > max(minReadTs, now - ttl)`.  The `minReadTs === 0 || Infinity`
abort of the source is the `none` case of `minWatermark` (a computed
minimum of non-zero values is never 0, and `Infinity` needs an empty
member list, which the first guard already rejects). -/
def cleanup (log : List Message) (wms : Watermarks) (cfg : CacheCfg)
    (roomId : String) (members : List String) (now : Int)
    (lockOk : Bool) : List Message :=
  if roomId = "" ∨ members = [] then log
  else if log.length < cfg.compactThreshold then log
  else
    match minWatermark wms members with
    | none => log
    | some minReadTs =>
        let cutoff := now - cfg.cleanupTtlMs
        let keepThreshold := max minReadTs cutoff
        let kept := log.filter (fun m => m.ts > keepThreshold)
        if kept.length = log.length then log
        else if lockOk then kept else log

-- ─── Task board (task-board.js, TaskBoard section) ───

/-- One entry of a slot's bounded history. -/
structure SlotHist where
  status : String
  note : String
  atMs : Int
deriving DecidableEq

/-- One agent's slot inside a task. -/
structure Slot where
  status : String
  rounds : Nat
  lastNote : String
  lastAt : Int
  history : List SlotHist
deriving DecidableEq

/-- One entry of a task's global history. -/
structure HistEntry where
  actor : String
  status : String
  note : String
  atMs : Int
deriving DecidableEq

/-- A v3 task record as written by `createTask`/`updateTask` (these
always carry a `slots` field, so the legacy migration on read is the
identity on them). -/
structure Task where
  taskId : String
  summary : String
  status : String
  createdBy : String
  createdAt : Int
  updatedAt : Int
  closedAt : Int
  slots : List (String × Slot)
  globalHistory : List HistEntry
deriving DecidableEq

/-- One entry of the room-level `board.json` index. -/
structure BoardEntry where
  status : String
  summary : String
deriving DecidableEq

/-- A room's on-disk task state: the `tasks/active` directory keyed
by sanitized task id, the append-only `tasks/history` directory, and
the `board.json` index keyed by raw task id. -/
structure RoomTasks where
  active : List (String × Task)
  history : List Task
  board : List (String × BoardEntry)
deriving DecidableEq

/-- Characters the task-id sanitizer keeps (`[a-zA-Z0-9._-]`). -/
def isTaskIdChar (c : Char) : Bool :=
  ('a' ≤ c && c ≤ 'z') || ('A' ≤ c && c ≤ 'Z') || ('0' ≤ c && c ≤ '9') ||
    c = '.' || c = '_' || c = '-'

/-- Model of `sanitizeTaskId`: replace every other character with `_`, falling
back to `"task"` for an empty id. -/
def sanitizeTaskId (taskId : String) : String :=
  let s := String.mk ((asString taskId).data.map
    (fun c => if isTaskIdChar c then c else '_'))
  if s = "" then "task" else s

/-- Model of `isTerminal`: membership in `TERMINAL_STATUSES`. -/
def isTerminal (status : String) : Bool :=
  lowerStr (asString status) = "done" || lowerStr (asString status) = "review_ok"

/-- The lower-cased status string of a slot, as `deriveTaskStatus`
computes it. -/
def slotStat (s : Slot) : String := lowerStr (asString s.status)

/-- Model of `deriveTaskStatus`: overall task status from the slot statuses. -/
def deriveTaskStatus (slots : List (String × Slot)) : String :=
  if slots = [] then "create"
  else
    let statuses := slots.map (fun p => slotStat p.2)
    if statuses.all (fun s => s = "done" || s = "review_ok") then "done"
    else if statuses.any (fun s => s = "blocked") then "blocked"
    else if statuses.any (fun s => s = "in_progress") then "in_progress"
    else "ack"

/-- Applying `migrateLegacyTask` to a record that already has a `slots` field
returns it unchanged; every record of this model carries one. -/
def migrateLegacyTask (t : Task) : Task := t

/-- Model of `TaskBoard.getTask`: read the sanitized task file and migrate. -/
def getTask (st : RoomTasks) (taskId : String) : Option Task :=
  (assocGet st.active (sanitizeTaskId taskId)).map migrateLegacyTask

/-- Result objects of `createTask` / `updateTask`. -/
inductive TaskResult where
  | invalid
  | lockFailed
  | maxActiveReached (count : Nat)
  | alreadyExists (task : Task)
  | notFound (taskId : String)
  | created (task : Task)
  | updated (closed : Bool) (task : Task)
deriving DecidableEq

/-- The `ok` field of a task result. -/
def TaskResult.ok : TaskResult → Bool
  | .created _ => true
  | .updated _ _ => true
  | _ => false

/-- Parameters of `createTask`. -/
structure CreateParams where
  taskId : String := ""
  summary : String := ""
  createdBy : String := ""
  note : String := ""
  status : String := ""

/-- Model of `TaskBoard.createTask`: reject when the active set is at the
`maxActiveTasks` ceiling or the id already exists, otherwise create
the task with empty slots and a one-entry global history and index it
on the board.  `lockOk` is the outcome of `withFileLock`. -/
def createTask (st : RoomTasks) (roomId : String) (p : CreateParams)
    (maxActiveTasks : Nat) (now : Int) (lockOk : Bool) :
    TaskResult × RoomTasks :=
  let taskId := asString p.taskId
  if roomId = "" ∨ taskId = "" then (.invalid, st)
  else if lockOk then
    if st.active.length ≥ maxActiveTasks then
      (.maxActiveReached st.active.length, st)
    else
      match getTask st taskId with
      | some existing => (.alreadyExists existing, st)
      | none =>
          let actor := strOrDefault p.createdBy "unknown"
          let initialStatus := strOrDefault p.status "create"
          let task : Task :=
            { taskId := taskId
              summary := asString p.summary
              status := initialStatus
              createdBy := actor
              createdAt := now
              updatedAt := now
              closedAt := 0
              slots := []
              globalHistory :=
                [{ actor := actor, status := initialStatus
                   note := asString p.note, atMs := now }] }
          (.created task,
           { st with
               active := assocSet st.active (sanitizeTaskId taskId) task
               board := assocSet st.board taskId
                 { status := task.status, summary := task.summary } })
  else (.lockFailed, st)

/-- Parameters of `updateTask`. -/
structure UpdateParams where
  taskId : String := ""
  status : String := ""
  actor : String := ""
  note : String := ""

/-- The task produced by `updateTask` before the terminal branch:
update (or lazily create) the actor's slot, push the bounded slot and
global histories, and derive the overall status. -/
def applyUpdate (task : Task) (actor status note : String) (now : Int) :
    Task :=
  let slot0 : Slot :=
    match assocGet task.slots actor with
    | none => { status := status, rounds := 1, lastNote := note
                lastAt := now, history := [] }
    | some s =>
        { s with
            rounds := s.rounds + 1
            status := status
            lastNote := note
            lastAt := now }
  let slot : Slot :=
    { slot0 with history := lastN 19 slot0.history ++
      [{ status := status, note := note, atMs := now }] }
  let slots := assocSet task.slots actor slot
  { task with
      slots := slots
      globalHistory := lastN 99 task.globalHistory ++
        [{ actor := actor, status := status, note := note, atMs := now }]
      status := deriveTaskStatus slots
      updatedAt := now }

/-- Model of `TaskBoard.updateTask`: write into the actor's slot, derive the
overall status, and either archive the task (terminal) or persist it
back to the active set. -/
def updateTask (st : RoomTasks) (roomId : String) (p : UpdateParams)
    (now : Int) (lockOk : Bool) : TaskResult × RoomTasks :=
  let taskId := asString p.taskId
  let status := lowerStr (asString p.status)
  let actor := strOrDefault p.actor "unknown"
  if roomId = "" ∨ taskId = "" ∨ status = "" then (.invalid, st)
  else if lockOk then
    match getTask st taskId with
    | none => (.notFound taskId, st)
    | some task =>
        let next := applyUpdate task actor status (asString p.note) now
        if isTerminal next.status then
          let closed := { next with closedAt := now }
          (.updated true closed,
           { st with
               active := assocDel st.active (sanitizeTaskId taskId)
               history := st.history ++ [closed]
               board := assocDel st.board taskId })
        else
          (.updated false next,
           { st with
               active := assocSet st.active (sanitizeTaskId taskId) next
               board := assocSet st.board taskId
                 { status := next.status, summary := next.summary } })
  else (.lockFailed, st)

-- ─── Cycle / rate limiter (state.js) ───

/-- A per-room cycle record. -/
structure Cycle where
  turnsUsed : Nat
  dispatchCount : Nat
  maxTurns : Nat
  maxDispatch : Nat
  ttlMs : Int
  createdAt : Int
  lastInboundAt : Int
  lastActivityAt : Int
deriving DecidableEq

/-- The room configuration fields the limiter reads;
`maxDispatchPerCycle := none` models `autopilot.maxDispatchPerCycle`
being nullish, defaulting to `maxTurnsPerCycle`. -/
structure RoomCycleConfig where
  cycleTtlSeconds : Int
  maxTurnsPerCycle : Nat
  maxDispatchPerCycle : Option Nat := none
deriving DecidableEq

/-- The `TeamChatState.cycles` map. -/
abbrev Cycles := List (String × Cycle)

/-- Model of `TeamChatState.getCycle`: return the room's live cycle with its
limits refreshed from config, or allocate a fresh zeroed cycle when
none exists or the TTL has elapsed. -/
def getCycle (cycles : Cycles) (roomId : String) (cfg : RoomCycleConfig)
    (now : Int) : Cycle × Cycles :=
  let ttlMs := cfg.cycleTtlSeconds * 1000
  let maxTurns := cfg.maxTurnsPerCycle
  let maxDispatch := cfg.maxDispatchPerCycle.getD maxTurns
  let fresh : Cycle :=
    { turnsUsed := 0, dispatchCount := 0, maxTurns := maxTurns
      maxDispatch := maxDispatch, ttlMs := ttlMs, createdAt := now
      lastInboundAt := 0, lastActivityAt := now }
  match assocGet cycles roomId with
  | none => (fresh, assocSet cycles roomId fresh)
  | some existing =>
      if now - existing.createdAt > ttlMs then
        (fresh, assocSet cycles roomId fresh)
      else
        let upd :=
          { existing with
              maxTurns := maxTurns
              maxDispatch := maxDispatch
              ttlMs := ttlMs }
        (upd, assocSet cycles roomId upd)

/-- The fixed debounce interval of `registerInboundExternal`. -/
def DEBOUNCE_MS : Int := 5000

/-- Model of `TeamChatState.registerInboundExternal`: zero the counters unless
the previous external-input registration was less than the debounce
interval ago, then stamp the inbound/activity times. -/
def registerInboundExternal (cycles : Cycles) (roomId : String)
    (cfg : RoomCycleConfig) (now : Int) : Cycle × Cycles :=
  let (cycle, cycles₁) := getCycle cycles roomId cfg now
  let shouldReset := cycle.lastInboundAt = 0 ∨ now - cycle.lastInboundAt ≥ DEBOUNCE_MS
  let cycle' :=
    { cycle with
        turnsUsed := if shouldReset then 0 else cycle.turnsUsed
        dispatchCount := if shouldReset then 0 else cycle.dispatchCount
        lastInboundAt := now
        lastActivityAt := now }
  (cycle', assocSet cycles₁ roomId cycle')

/-- Result of `tryConsumeTurn`. -/
structure TurnResult where
  ok : Bool
  turnsUsed : Nat
  maxTurns : Nat
deriving DecidableEq

/-- Model of `TeamChatState.tryConsumeTurn`: check-and-increment against the
cycle's turn budget, returning a structured failure when exhausted. -/
def tryConsumeTurn (cycles : Cycles) (roomId : String)
    (cfg : RoomCycleConfig) (now : Int) : TurnResult × Cycles :=
  let (cycle, cycles₁) := getCycle cycles roomId cfg now
  if cycle.turnsUsed ≥ cycle.maxTurns then
    ({ ok := false, turnsUsed := cycle.turnsUsed
       maxTurns := cycle.maxTurns },
     cycles₁)
  else
    let cycle' :=
      { cycle with
          turnsUsed := cycle.turnsUsed + 1
          lastActivityAt := now }
    ({ ok := true, turnsUsed := cycle'.turnsUsed
       maxTurns := cycle.maxTurns }, assocSet cycles₁ roomId cycle')

-- ─── Identity & routing (state.js) ───

/-- The room fields the session-key validator reads. -/
structure Room where
  id : String
deriving DecidableEq

/-- Model of `isSafeTeamroomSessionKey`: the lower-cased key must be non-empty,
contain `":group:"` and the room's lower-cased conversation id, and
when it encodes an agent identity (`agent:` prefix) that identity
must be the intended target agent. -/
def isSafeTeamroomSessionKey (sessionKey : String) (room : Room)
    (targetAgent : String) : Bool :=
  let key := lowerStr (asString sessionKey)
  if key = "" then false
  else
    let roomId := lowerStr (asString room.id)
    if roomId = "" then false
    else if !jsIncludes key ":group:" then false
    else if !jsIncludes key roomId then false
    else if jsStartsWith key "agent:" then
      jsStartsWith key ("agent:" ++ lowerStr (asString targetAgent) ++ ":")
    else true

/-- Model of `resolveAgentSessionKey`: `routeSessionKey` is the candidate key
obtained from the external routing collaborator
(`asString(route?.sessionKey)` of its answer) and `accountId` the
account resolved for the agent; an unsafe candidate yields an empty
session key. -/
def resolveAgentSessionKey (room : Room) (agentId : String)
    (accountId : String) (routeSessionKey : String) : String × String :=
  let sessionKey := asString routeSessionKey
  if !isSafeTeamroomSessionKey sessionKey room agentId then (accountId, "")
  else (accountId, sessionKey)

-- ─── Concrete sample data used by witnesses and counterexamples ───

/-- A human message at ts 900000. -/
def msgOld : Message :=
  { id := "m-old", ts := 900000, sender := "Finley", senderId := "u1"
    sourceAgent := "", content := "old question", mentions := [], type := "message" }

/-- A human message at ts 1200000: older than the TTL cutoff of the
cleanup counterexample but unread by every member. -/
def msgMid : Message :=
  { id := "m-mid", ts := 1200000, sender := "Finley", senderId := "u1"
    sourceAgent := "", content := "unread but old", mentions := [], type := "message" }

/-- A recent message at ts 4900000. -/
def msgNew : Message :=
  { id := "m-new", ts := 4900000, sender := "Finley", senderId := "u1"
    sourceAgent := "", content := "fresh", mentions := [], type := "message" }

/-- The cleanup counterexample log. -/
def logEx : List Message := [msgOld, msgMid, msgNew]

/-- Watermarks where both members have read up to ts 1000000 /
1100000, so the minimum watermark is 1000000. -/
def wmsEx : Watermarks :=
  [("builder", { lastReadId := "m-old", lastReadTs := 1000000 }),
   ("researcher", { lastReadId := "m-old", lastReadTs := 1100000 })]

/-- Cache options: the default one-hour TTL and a compaction
threshold the three-message log meets. -/
def cfgEx : CacheCfg := { cleanupTtlMs := 3600000, compactThreshold := 3 }

/-- First message of the read-watermark scenario. -/
def msgA : Message :=
  { id := "n1", ts := 100, sender := "user", senderId := "u1"
    sourceAgent := "", content := "hello", mentions := [], type := "message" }

/-- A message appended after `msgA` whose `sourceAgent` is the agent
under test. -/
def msgOwn : Message :=
  { id := "n2", ts := 200, sender := "builder-bot", senderId := "b1"
    sourceAgent := "builder", content := "my own reply", mentions := [], type := "message" }

/-- Limiter config of the debounce counterexample: the minimum
allowed TTL (30 s) and three turns per cycle. -/
def cfgCycleEx : RoomCycleConfig :=
  { cycleTtlSeconds := 30, maxTurnsPerCycle := 3 }

/-- Cycle map after a turn consumed at t=1000 created the cycle. -/
def cyclesEx0 : Cycles := (tryConsumeTurn [] "room-1" cfgCycleEx 1000).2

/-- Cycle map after the first external registration at t=29000. -/
def cyclesEx1 : Cycles := (registerInboundExternal cyclesEx0 "room-1" cfgCycleEx 29000).2

/-- The turn consumed between the two registrations, at t=29000. -/
def turnEx : TurnResult × Cycles := tryConsumeTurn cyclesEx1 "room-1" cfgCycleEx 29000

/-- Parameters of the duplicate-create scenario. -/
def cParamsEx : CreateParams :=
  { taskId := "T-1", summary := "fix the bug", createdBy := "main", note := "urgent" }

/-- An empty room task state. -/
def rtEmpty : RoomTasks := { active := [], history := [], board := [] }

/-- Task-board scenario: a freshly created task. -/
def taskT0 : Task :=
  { taskId := "T-1", summary := "s", status := "create", createdBy := "main"
    createdAt := 100, updatedAt := 100, closedAt := 0, slots := []
    globalHistory := [{ actor := "main", status := "create", note := ""
                        atMs := 100 }] }

/-- Room task state holding just `taskT0`. -/
def rtScenario : RoomTasks :=
  { active := [("T-1", taskT0)], history := []
    board := [("T-1", { status := "create", summary := "s" })] }

/-- First update of the scenario: builder signals in_progress. -/
def upBuilder : UpdateParams :=
  { taskId := "T-1", status := "in_progress", actor := "builder" }

/-- Second update of the scenario: researcher signals done. -/
def upResearcher : UpdateParams :=
  { taskId := "T-1", status := "done", actor := "researcher" }

/-- Builder's slot after the first update. -/
def slotB : Slot :=
  { status := "in_progress", rounds := 1, lastNote := "", lastAt := 300
    history := [{ status := "in_progress", note := "", atMs := 300 }] }

/-- Researcher's slot after the second update. -/
def slotR : Slot :=
  { status := "done", rounds := 1, lastNote := "", lastAt := 400
    history := [{ status := "done", note := "", atMs := 400 }] }

/-- The task record after the first update. -/
def taskAfter1 : Task :=
  { taskId := "T-1", summary := "s", status := "in_progress"
    createdBy := "main", createdAt := 100, updatedAt := 300, closedAt := 0
    slots := [("builder", slotB)]
    globalHistory := [{ actor := "main", status := "create", note := ""
                        atMs := 100 },
                      { actor := "builder", status := "in_progress", note := ""
                        atMs := 300 }] }

/-- The task record after the second update: builder still
in_progress, so the overall status stays in_progress. -/
def taskAfter2 : Task :=
  { taskId := "T-1", summary := "s", status := "in_progress"
    createdBy := "main", createdAt := 100, updatedAt := 400, closedAt := 0
    slots := [("builder", slotB), ("researcher", slotR)]
    globalHistory := [{ actor := "main", status := "create", note := ""
                        atMs := 100 },
                      { actor := "builder", status := "in_progress", note := ""
                        atMs := 300 },
                      { actor := "researcher", status := "done", note := ""
                        atMs := 400 }] }

/-- Room task state after the first update. -/
def rtAfter1 : RoomTasks :=
  { active := [("T-1", taskAfter1)], history := []
    board := [("T-1", { status := "in_progress", summary := "s" })] }

/-- Room task state after the second update. -/
def rtAfter2 : RoomTasks :=
  { active := [("T-1", taskAfter2)], history := []
    board := [("T-1", { status := "in_progress", summary := "s" })] }

-- ─── Toolbox lemmas ───

theorem assocGet_assocSet_self {β : Type} (l : List (String × β)) (a : String)
    (v : β) : assocGet (assocSet l a v) a = some v := by
  induction l with
  | nil => simp [assocGet, assocSet]
  | cons hd tl ih =>
      obtain ⟨k, w⟩ := hd
      by_cases h : k = a <;> simp [assocGet, assocSet, h, ih]

theorem assocGet_assocSet_ne {β : Type} (l : List (String × β)) (a b : String)
    (v : β) (h : a ≠ b) : assocGet (assocSet l a v) b = assocGet l b := by
  induction l with
  | nil => simp [assocGet, assocSet, h]
  | cons hd tl ih =>
      obtain ⟨k, w⟩ := hd
      by_cases hk : k = a
      · subst hk
        simp [assocGet, assocSet, h]
      · simp [assocGet, assocSet, hk, ih]

theorem assocSet_ne_nil {β : Type} (l : List (String × β)) (a : String)
    (v : β) : assocSet l a v ≠ [] := by
  cases l with
  | nil => simp [assocSet]
  | cons hd tl =>
      obtain ⟨k, w⟩ := hd
      by_cases h : k = a <;> simp [assocSet, h]

theorem keys_assocSet {β : Type} (l : List (String × β)) (a : String) (v : β)
    (h : a ∈ l.map Prod.fst) :
    (assocSet l a v).map Prod.fst = l.map Prod.fst := by
  induction l with
  | nil => simp at h
  | cons hd tl ih =>
      obtain ⟨k, w⟩ := hd
      by_cases hk : k = a
      · subst hk
        simp [assocSet]
      · simp only [List.map_cons, List.mem_cons] at h
        rcases h with h | h
        · exact absurd h.symm hk
        · simp [assocSet, hk, ih h]

theorem keys_assocSet_not_mem {β : Type} (l : List (String × β)) (a : String)
    (v : β) (h : a ∉ l.map Prod.fst) :
    (assocSet l a v).map Prod.fst = l.map Prod.fst ++ [a] := by
  induction l with
  | nil => simp [assocSet]
  | cons hd tl ih =>
      obtain ⟨k, w⟩ := hd
      simp only [List.map_cons, List.mem_cons] at h
      push_neg at h
      simp [assocSet, Ne.symm h.1, ih h.2]

theorem assocGet_eq_none_of_not_mem {β : Type} (l : List (String × β))
    (a : String) (h : a ∉ l.map Prod.fst) : assocGet l a = none := by
  induction l with
  | nil => simp [assocGet]
  | cons hd tl ih =>
      obtain ⟨k, w⟩ := hd
      simp only [List.map_cons, List.mem_cons] at h
      push_neg at h
      simp [assocGet, h.1.symm, ih h.2]

theorem assocGet_assocDel_self {β : Type} (l : List (String × β)) (a : String)
    (hnd : (l.map Prod.fst).Nodup) : assocGet (assocDel l a) a = none := by
  induction l with
  | nil => simp [assocDel, assocGet]
  | cons hd tl ih =>
      obtain ⟨k, w⟩ := hd
      simp only [List.map_cons, List.nodup_cons] at hnd
      by_cases hk : k = a
      · subst hk
        simp only [assocDel, if_pos rfl]
        exact assocGet_eq_none_of_not_mem tl k hnd.1
      · simp [assocDel, assocGet, hk, ih hnd.2]

theorem nodup_keys_assocSet {β : Type} (l : List (String × β)) (a : String)
    (v : β) (hnd : (l.map Prod.fst).Nodup) :
    ((assocSet l a v).map Prod.fst).Nodup := by
  by_cases h : a ∈ l.map Prod.fst
  · rw [keys_assocSet l a v h]; exact hnd
  · rw [keys_assocSet_not_mem l a v h]
    rw [List.nodup_append]
    refine ⟨hnd, List.nodup_singleton a, ?_⟩
    intro x hx hxa
    simp only [List.mem_singleton] at hxa
    subst hxa
    exact h hx

theorem findIdxq_of_prefix {α : Type} (p : α → Bool) (pre post : List α)
    (m : α) (hpre : ∀ x ∈ pre, p x = false) (hm : p m = true) :
    (pre ++ m :: post).findIdx? p = some pre.length := by
  induction pre with
  | nil => simp [hm]
  | cons c cs ih =>
      have hc : p c = false := hpre c (List.mem_cons_self c cs)
      have ih' := ih (fun x hx => hpre x (List.mem_cons_of_mem c hx))
      simp only [List.cons_append, List.findIdx?_cons, hc, Bool.false_eq_true,
        if_false, List.findIdx?_succ, ih', Option.map_some', List.length_cons]

theorem dropWhile_idem {α : Type} (p : α → Bool) (l : List α) :
    List.dropWhile p (List.dropWhile p l) = List.dropWhile p l := by
  induction l with
  | nil => simp
  | cons c cs ih =>
      by_cases h : p c = true
      · simpa [List.dropWhile_cons, h] using ih
      · simp [List.dropWhile_cons, h]

theorem dropWhile_is_suffix {α : Type} (p : α → Bool) (l : List α) :
    ∃ u, u ++ List.dropWhile p l = l := by
  induction l with
  | nil => exact ⟨[], rfl⟩
  | cons c cs ih =>
      by_cases h : p c = true
      · obtain ⟨u, hu⟩ := ih
        exact ⟨c :: u, by simp [List.dropWhile_cons, h, hu]⟩
      · exact ⟨[], by simp [List.dropWhile_cons, h]⟩

theorem dropWhile_head_false {α : Type} (p : α → Bool) (l : List α)
    (h : List.dropWhile p l = l) :
    l = [] ∨ ∃ c cs, l = c :: cs ∧ p c = false := by
  cases l with
  | nil => exact Or.inl rfl
  | cons c cs =>
      right
      refine ⟨c, cs, rfl, ?_⟩
      by_contra hc
      rw [Bool.not_eq_false] at hc
      rw [List.dropWhile_cons, if_pos hc] at h
      obtain ⟨u, hu⟩ := dropWhile_is_suffix p cs
      rw [h] at hu
      have := congrArg List.length hu
      simp only [List.length_append, List.length_cons] at this
      omega

theorem dropWs_of_trimmed_prefix (l l' u : List Char)
    (hpfx : l = l' ++ u) (hl : dropWs l = l) : dropWs l' = l' := by
  rcases dropWhile_head_false isWsChar l hl with hnil | ⟨c, cs, hcons, hc⟩
  · have : l' = [] := by
      apply List.eq_nil_of_length_eq_zero
      have := congrArg List.length hpfx
      rw [hnil] at this
      simp at this
      omega
    simp [this, dropWs]
  · cases l' with
    | nil => simp [dropWs]
    | cons d ds =>
        have hd : d = c := by
          rw [hcons] at hpfx
          simpa using congrArg (fun t => t.head?) hpfx.symm
    -- head of the prefix is the head of l, which fails the predicate
        subst hd
        simp [dropWs, List.dropWhile_cons, hc]

theorem trimChars_idem (l : List Char) : trimChars (trimChars l) = trimChars l := by
  have hAtrim : dropWs (dropWs l) = dropWs l := by
    simp only [dropWs, dropWhile_idem]
  obtain ⟨u, hu⟩ := dropWhile_is_suffix isWsChar (dropWs l).reverse
  have hpfx : dropWs l = trimChars l ++ u.reverse := by
    have h := congrArg List.reverse hu
    simpa [trimChars] using h.symm
  have h1 : dropWs (trimChars l) = trimChars l :=
    dropWs_of_trimmed_prefix (dropWs l) (trimChars l) u.reverse hpfx hAtrim
  have h2 : dropWs (trimChars l).reverse = (trimChars l).reverse := by
    show dropWs ((dropWs ((dropWs l).reverse)).reverse).reverse
      = ((dropWs ((dropWs l).reverse)).reverse).reverse
    rw [List.reverse_reverse]
    simp only [dropWs, dropWhile_idem]
  show (dropWs ((dropWs (trimChars l)).reverse)).reverse = trimChars l
  rw [h1, h2, List.reverse_reverse]

theorem asString_idem (s : String) : asString (asString s) = asString s := by
  show String.mk (trimChars (trimChars s.data)) = String.mk (trimChars s.data)
  rw [trimChars_idem]

-- ─── Claim theorems ───

/-- C6: a draft whose content carries a reserved injection marker
(`[UNTRUSTED DATA` or `<relevant-memories>` inside the trimmed
content) is rejected by `appendMessage`: the call returns null and
the room's message log is unchanged, for every room id. -/
theorem C6_injection_marker_rejected (log : List Message) (roomId : String)
    (p : MsgDraft) (env : AppendEnv)
    (h : hasInjectionMarker (asString p.content) = true) :
    appendMessage log roomId p env = (none, log) := by
  by_cases hr : roomId = "" <;> simp [appendMessage, hr, h]

/-- Witness for C6 at a concrete draft containing the first marker. -/
theorem C6_witness :
    hasInjectionMarker (asString ("note [UNTRUSTED DATA] end" : String)) = true ∧
    appendMessage [msgA] "room-1" { content := "note [UNTRUSTED DATA] end" }
      ⟨1000, 5, "ab", true⟩ = (none, [msgA]) :=
  ⟨by decide,
   C6_injection_marker_rejected [msgA] "room-1"
     { content := "note [UNTRUSTED DATA] end" } ⟨1000, 5, "ab", true⟩ (by decide)⟩

/-- C9: for a non-empty room id and a marker-free draft,
`appendMessage` returns the fully populated record `buildRecord p env`
whether or not the write lock was acquired and the file append
happened, and the returned value is identical in both cases — the
caller cannot tell from it whether the message became durable. -/
theorem C9_append_return_lock_blind (log : List Message) (roomId : String)
    (p : MsgDraft) (now : Int) (seq : Nat) (rand : String)
    (hroom : roomId ≠ "")
    (hclean : hasInjectionMarker (asString p.content) = false) :
    (∀ lockOk : Bool, (appendMessage log roomId p ⟨now, seq, rand, lockOk⟩).1
        = some (buildRecord p now seq rand)) ∧
    (appendMessage log roomId p ⟨now, seq, rand, false⟩).1
      = (appendMessage log roomId p ⟨now, seq, rand, true⟩).1 := by
  constructor
  · intro lockOk
    simp [appendMessage, hroom, hclean]
  · simp [appendMessage, hroom, hclean]

/-- Witness for C9 at a concrete clean draft with the lock denied. -/
theorem C9_witness :
    (appendMessage [] "room-1" { content := "hello" } ⟨1000, 5, "ab", false⟩).1
      = some (buildRecord { content := "hello" } 1000 5 "ab") :=
  (C9_append_return_lock_blind [] "room-1" { content := "hello" } 1000 5 "ab"
    (by decide) (by decide)).1 false

/-- C10 counterexample: `markAsRead` called with a negative `upToTs`
(e.g. -5) stores that value verbatim, so the resulting watermark's
`lastReadTs` is not positive, refuting the claim that every
`markAsRead` with non-empty room and agent ids leaves a positive
`lastReadTs`. -/
theorem C10_counterexample :
    assocGet (markAsRead [] "room-1" "builder" "m-old" (some (-5)) 1000 true)
        "builder" = some { lastReadId := "m-old", lastReadTs := -5 } ∧
    ¬ (0 : Int) < -5 := by decide

/-- C10 (amended): for non-empty room and agent ids with the
watermark lock acquired, `markAsRead` with an empty (after trimming)
`upToMessageId` keeps the previously stored `lastReadId`; a zero or
non-numeric `upToTs` stores the current clock as `lastReadTs`; and
the stored `lastReadTs` is positive provided the clock is positive
and `upToTs` is not negative (a negative `upToTs` is stored as-is). -/
theorem C10_markAsRead_watermark (wms : Watermarks) (roomId agentId upId : String)
    (upToTs : Option Int) (now : Int)
    (hroom : roomId ≠ "") (hagent : agentId ≠ "") :
    (asString upId = "" →
      (assocGet (markAsRead wms roomId agentId upId upToTs now true) agentId).map
          (fun w => w.lastReadId)
        = some (((assocGet wms agentId).map (fun w => w.lastReadId)).getD "")) ∧
    ((upToTs = none ∨ upToTs = some 0) →
      (assocGet (markAsRead wms roomId agentId upId upToTs now true) agentId).map
          (fun w => w.lastReadTs) = some now) ∧
    (0 < now → (∀ t, upToTs = some t → 0 ≤ t) →
      ∃ w, assocGet (markAsRead wms roomId agentId upId upToTs now true) agentId
          = some w ∧ 0 < w.lastReadTs) := by
  have hguard : ¬ (roomId = "" ∨ agentId = "") := by
    intro h
    rcases h with h | h
    · exact hroom h
    · exact hagent h
  refine ⟨fun hempty => ?_, fun hts => ?_, fun hnow hnn => ?_⟩
  · simp [markAsRead, hguard, hempty, assocGet_assocSet_self]
  · rcases hts with h | h <;> simp [markAsRead, hguard, h, numOr, assocGet_assocSet_self]
  · refine ⟨{ lastReadId := if asString upId = ""
                then ((assocGet wms agentId).map (fun w => w.lastReadId)).getD ""
                else asString upId
              lastReadTs := numOr upToTs now }, ?_, ?_⟩
    · simp [markAsRead, hguard, assocGet_assocSet_self]
    · show 0 < numOr upToTs now
      cases upToTs with
      | none => simpa [numOr] using hnow
      | some t =>
          have ht := hnn t rfl
          by_cases h0 : t = 0 <;> simp [numOr, h0] <;> omega

/-- Witness for C10 (amended) at a concrete call: empty id, zero ts. -/
theorem C10_witness :
    (assocGet (markAsRead [("builder", { lastReadId := "prev", lastReadTs := 77 })]
        "room-1" "builder" "" (some 0) 1000 true) "builder").map
        (fun w => w.lastReadTs) = some 1000 :=
  (C10_markAsRead_watermark
    [("builder", { lastReadId := "prev", lastReadTs := 77 })]
    "room-1" "builder" "" (some 0) 1000 (by decide) (by decide)).2.1 (Or.inr rfl)

/-- C1: evaluation of `cleanup` at the failing input.  Both member
agents have watermarks, the minimum being 1000000; the log meets the
compaction threshold; `msgMid` has ts 1200000, strictly above the
minimum watermark, i.e. not yet read by every member.  Yet `cleanup`
at now=5000000 with the default one-hour TTL removes it, because the
code retains only `ts > max(minReadTs, now - ttl)` — its own comment
(keep if unread OR within TTL) and the repository test
`cleanup removes fully-read old messages` require the unread message
to survive. -/
theorem C1_cleanup_removes_unread :
    minWatermark wmsEx ["builder", "researcher"] = some 1000000 ∧
    msgMid ∈ logEx ∧ msgMid.ts > 1000000 ∧
    logEx.length ≥ cfgEx.compactThreshold ∧
    msgMid ∉ cleanup logEx wmsEx cfgEx "room-1" ["builder", "researcher"] 5000000 true ∧
    cleanup logEx wmsEx cfgEx "room-1" ["builder", "researcher"] 5000000 true
      = [msgNew] := by decide

/-- C8: `resolveAgentSessionKey` returns an empty session key
whenever the candidate key (lower-cased, trimmed) does not contain
the target room's lower-cased conversation id, or starts with
`agent:` but not with `agent:<target agent>:`; and a non-empty
session key is returned only when `isSafeTeamroomSessionKey` accepts
the candidate, in which case it is the trimmed candidate itself. -/
theorem C8_session_key_guard (room : Room) (agentId accountId candidate : String) :
    (jsIncludes (lowerStr (asString candidate)) (lowerStr (asString room.id)) = false →
      (resolveAgentSessionKey room agentId accountId candidate).2 = "") ∧
    (jsStartsWith (lowerStr (asString candidate)) "agent:" = true →
      jsStartsWith (lowerStr (asString candidate))
          ("agent:" ++ lowerStr (asString agentId) ++ ":") = false →
      (resolveAgentSessionKey room agentId accountId candidate).2 = "") ∧
    ((resolveAgentSessionKey room agentId accountId candidate).2 ≠ "" →
      isSafeTeamroomSessionKey (asString candidate) room agentId = true ∧
      (resolveAgentSessionKey room agentId accountId candidate).2
        = asString candidate) := by
  have hkey : asString (asString candidate) = asString candidate :=
    asString_idem candidate
  refine ⟨fun hroom => ?_, fun hagent hpfx => ?_, fun hne => ?_⟩
  · have hsafe : isSafeTeamroomSessionKey (asString candidate) room agentId = false := by
      unfold isSafeTeamroomSessionKey
      rw [hkey]
      dsimp only
      split_ifs <;> simp_all
    simp [resolveAgentSessionKey, hsafe]
  · have hsafe : isSafeTeamroomSessionKey (asString candidate) room agentId = false := by
      unfold isSafeTeamroomSessionKey
      rw [hkey]
      dsimp only
      split_ifs <;> simp_all
    simp [resolveAgentSessionKey, hsafe]
  · by_cases hsafe : isSafeTeamroomSessionKey (asString candidate) room agentId = true
    · exact ⟨hsafe, by simp [resolveAgentSessionKey, hsafe]⟩
    · rw [Bool.not_eq_true] at hsafe
      exact absurd (by simp [resolveAgentSessionKey, hsafe]) hne

/-- Witness for C8: a candidate key that encodes a different agent
identity is rejected with an empty session key. -/
theorem C8_witness :
    (resolveAgentSessionKey { id := "oc_123" } "builder" "acc"
      "agent:main:feishu:group:oc_123").2 = "" :=
  (C8_session_key_guard { id := "oc_123" } "builder" "acc"
    "agent:main:feishu:group:oc_123").2.1 (by decide) (by decide)

/-- C3 counterexample: `msgOwn` is appended after `msgA` but carries
`sourceAgent = "builder"`; after builder marks `msgA` read,
`getUnreadMessages` returns the empty list, excluding `msgOwn` even
though it was appended after the marked message — refuting the
unconditional "includes every message appended after m". -/
theorem C3_counterexample :
    getUnreadMessages [msgA, msgOwn]
        (markAsRead [] "room-1" "builder" msgA.id (some msgA.ts) 1000 true)
        "room-1" "builder" = [] ∧
    msgOwn ∈ [msgA, msgOwn] ∧ msgOwn.sourceAgent = "builder" := by decide

/-- C3 (amended): after `markAsRead(room, agent, m.id, m.ts)` where
`m` occurs in the log with a trimmed, non-empty id not shared by any
earlier entry, `getUnreadMessages(room, agent)` returns exactly the
messages appended after `m` whose `sourceAgent` differs from the
agent: `m` and everything before it are excluded, and later messages
are included iff they are not the agent's own. -/
theorem C3_watermark_boundary (pre post : List Message) (m : Message)
    (wms : Watermarks) (roomId agentId : String) (now : Int)
    (hroom : roomId ≠ "") (hagent : agentId ≠ "")
    (hid : asString m.id = m.id) (hne : m.id ≠ "")
    (hpre : ∀ x ∈ pre, x.id ≠ m.id) :
    getUnreadMessages (pre ++ m :: post)
        (markAsRead wms roomId agentId m.id (some m.ts) now true) roomId agentId
      = post.filter (fun x => x.sourceAgent ≠ agentId) := by
  have hguard : ¬ (roomId = "" ∨ agentId = "") := by
    intro h
    rcases h with h | h
    · exact hroom h
    · exact hagent h
  have hwm : assocGet (markAsRead wms roomId agentId m.id (some m.ts) now true) agentId
      = some { lastReadId := m.id, lastReadTs := numOr (some m.ts) now } := by
    simp [markAsRead, hguard, hid, hne, assocGet_assocSet_self]
  have hfind : (pre ++ m :: post).findIdx? (fun x => x.id = m.id) = some pre.length := by
    refine findIdxq_of_prefix _ pre post m (fun x hx => ?_) (by simp)
    simp [hpre x hx]
  have hdrop : (pre ++ m :: post).drop (pre.length + 1) = post := by
    have h := @List.drop_append _ pre (m :: post) 1
    simp only [List.drop_succ_cons, List.drop_zero] at h
    exact h
  simp only [getUnreadMessages, hguard, if_false, hwm, Option.map_some', Option.getD_some]
  rw [if_pos hne, hfind]
  simp only [hdrop]

/-- Witness for C3 (amended): concrete two-message log where the
later message is the agent's own. -/
theorem C3_witness :
    getUnreadMessages [msgA, msgOwn]
        (markAsRead [] "room-1" "main" msgA.id (some msgA.ts) 1000 true)
        "room-1" "main"
      = [msgOwn].filter (fun x => x.sourceAgent ≠ "main") :=
  C3_watermark_boundary [] [msgOwn] msgA [] "room-1" "main" 1000
    (by decide) (by decide) (by decide) (by decide) (by decide)

/-- C4 counterexample: cycle created at t=1000 (ttl = 30 s, the
minimum the config normalizer allows); first external registration at
t=29000, one turn consumed at t=29000, second registration at
t=33000 — a gap of 4000 ms, inside the 5000 ms debounce window.  Yet
after the second call `turnsUsed` is 0, because the cycle's TTL
(measured from `createdAt`, not from the registration) elapsed at
t=31000 and `getCycle` allocated a fresh zeroed cycle — the turn
consumed between the two calls is no longer counted. -/
theorem C4_counterexample :
    turnEx.1 = { ok := true, turnsUsed := 1, maxTurns := 3 } ∧
    (33000 : Int) - 29000 < DEBOUNCE_MS ∧
    (registerInboundExternal turnEx.2 "room-1" cfgCycleEx 33000).1.turnsUsed = 0 := by
  decide

/-- C4 (amended): two `registerInboundExternal` calls less than the
debounce interval apart do not reset the counters a second time,
provided the cycle is still within its TTL at the second call and the
first registration time is nonzero: the second call returns the cycle
with `turnsUsed` and `dispatchCount` unchanged, so turns consumed
between the calls remain counted.  (`c.lastInboundAt` is the time of
the previous registration — only `registerInboundExternal` stores a
nonzero value there.) -/
theorem C4_debounced_no_reset (cycles : Cycles) (roomId : String)
    (cfg : RoomCycleConfig) (c : Cycle) (t2 : Int)
    (hc : assocGet cycles roomId = some c)
    (hin : c.lastInboundAt ≠ 0)
    (hgap : t2 - c.lastInboundAt < DEBOUNCE_MS)
    (httl : ¬ t2 - c.createdAt > cfg.cycleTtlSeconds * 1000) :
    (registerInboundExternal cycles roomId cfg t2).1.turnsUsed = c.turnsUsed ∧
    (registerInboundExternal cycles roomId cfg t2).1.dispatchCount
      = c.dispatchCount := by
  have hsr : ¬ (c.lastInboundAt = 0 ∨ t2 - c.lastInboundAt ≥ DEBOUNCE_MS) := by
    push_neg
    exact ⟨hin, by omega⟩
  simp [registerInboundExternal, getCycle, hc, httl, hsr]

/-- Witness for C4 (amended): a live cycle with two turns used, second
registration 3000 ms after the first. -/
theorem C4_witness :
    (registerInboundExternal
        [("room-1", { turnsUsed := 2, dispatchCount := 1, maxTurns := 3
                      maxDispatch := 3, ttlMs := 30000, createdAt := 1000
                      lastInboundAt := 1000, lastActivityAt := 1200 })]
        "room-1" cfgCycleEx 4000).1.turnsUsed = 2 :=
  (C4_debounced_no_reset
    [("room-1", { turnsUsed := 2, dispatchCount := 1, maxTurns := 3
                  maxDispatch := 3, ttlMs := 30000, createdAt := 1000
                  lastInboundAt := 1000, lastActivityAt := 1200 })]
    "room-1" cfgCycleEx
    { turnsUsed := 2, dispatchCount := 1, maxTurns := 3
      maxDispatch := 3, ttlMs := 30000, createdAt := 1000
      lastInboundAt := 1000, lastActivityAt := 1200 } 4000
    (by decide) (by decide) (by decide) (by decide)).1

/-- C5: starting from no cycle, an external registration at `t0`
creates a fresh cycle; with `maxTurnsPerCycle = 2` the first two
`tryConsumeTurn` calls succeed with `turnsUsed` 1 and 2, the third
fails with `ok = false`, `turnsUsed = 2`, `maxTurns = 2`; and a
further `registerInboundExternal` whose gap since the previous
registration exceeds the debounce interval resets `turnsUsed` to 0
(whether or not the cycle TTL also elapsed). -/
theorem C5_turn_budget_and_reset (cfg : RoomCycleConfig) (roomId : String)
    (t0 t1 : Int)
    (hmax : cfg.maxTurnsPerCycle = 2)
    (httl : 0 ≤ cfg.cycleTtlSeconds)
    (hgap : t1 - t0 > DEBOUNCE_MS) :
    (tryConsumeTurn (registerInboundExternal [] roomId cfg t0).2
        roomId cfg t0).1 = { ok := true, turnsUsed := 1, maxTurns := 2 } ∧
    (tryConsumeTurn (tryConsumeTurn (registerInboundExternal [] roomId cfg t0).2
        roomId cfg t0).2 roomId cfg t0).1
      = { ok := true, turnsUsed := 2, maxTurns := 2 } ∧
    (tryConsumeTurn (tryConsumeTurn (tryConsumeTurn
        (registerInboundExternal [] roomId cfg t0).2 roomId cfg t0).2
        roomId cfg t0).2 roomId cfg t0).1
      = { ok := false, turnsUsed := 2, maxTurns := 2 } ∧
    (registerInboundExternal (tryConsumeTurn (tryConsumeTurn (tryConsumeTurn
        (registerInboundExternal [] roomId cfg t0).2 roomId cfg t0).2
        roomId cfg t0).2 roomId cfg t0).2 roomId cfg t1).1.turnsUsed = 0 := by
  have hpos : ¬ (cfg.cycleTtlSeconds * 1000 < 0) := by omega
  have hge : t1 - t0 ≥ DEBOUNCE_MS := le_of_lt hgap
  have h0 : registerInboundExternal [] roomId cfg t0 =
      ({ turnsUsed := 0, dispatchCount := 0, maxTurns := 2
         maxDispatch := cfg.maxDispatchPerCycle.getD 2
         ttlMs := cfg.cycleTtlSeconds * 1000, createdAt := t0
         lastInboundAt := t0, lastActivityAt := t0 },
       [(roomId,
         { turnsUsed := 0, dispatchCount := 0, maxTurns := 2
           maxDispatch := cfg.maxDispatchPerCycle.getD 2
           ttlMs := cfg.cycleTtlSeconds * 1000, createdAt := t0
           lastInboundAt := t0, lastActivityAt := t0 })]) := by
    simp [registerInboundExternal, getCycle, assocGet, assocSet, hmax]
  have h1 : tryConsumeTurn
      [(roomId,
        { turnsUsed := 0, dispatchCount := 0, maxTurns := 2
          maxDispatch := cfg.maxDispatchPerCycle.getD 2
          ttlMs := cfg.cycleTtlSeconds * 1000, createdAt := t0
          lastInboundAt := t0, lastActivityAt := t0 })] roomId cfg t0 =
      ({ ok := true, turnsUsed := 1, maxTurns := 2 },
       [(roomId,
         { turnsUsed := 1, dispatchCount := 0, maxTurns := 2
           maxDispatch := cfg.maxDispatchPerCycle.getD 2
           ttlMs := cfg.cycleTtlSeconds * 1000, createdAt := t0
           lastInboundAt := t0, lastActivityAt := t0 })]) := by
    simp [tryConsumeTurn, getCycle, assocGet, assocSet, hmax, hpos]
  have h2 : tryConsumeTurn
      [(roomId,
        { turnsUsed := 1, dispatchCount := 0, maxTurns := 2
          maxDispatch := cfg.maxDispatchPerCycle.getD 2
          ttlMs := cfg.cycleTtlSeconds * 1000, createdAt := t0
          lastInboundAt := t0, lastActivityAt := t0 })] roomId cfg t0 =
      ({ ok := true, turnsUsed := 2, maxTurns := 2 },
       [(roomId,
         { turnsUsed := 2, dispatchCount := 0, maxTurns := 2
           maxDispatch := cfg.maxDispatchPerCycle.getD 2
           ttlMs := cfg.cycleTtlSeconds * 1000, createdAt := t0
           lastInboundAt := t0, lastActivityAt := t0 })]) := by
    simp [tryConsumeTurn, getCycle, assocGet, assocSet, hmax, hpos]
  have h3 : tryConsumeTurn
      [(roomId,
        { turnsUsed := 2, dispatchCount := 0, maxTurns := 2
          maxDispatch := cfg.maxDispatchPerCycle.getD 2
          ttlMs := cfg.cycleTtlSeconds * 1000, createdAt := t0
          lastInboundAt := t0, lastActivityAt := t0 })] roomId cfg t0 =
      ({ ok := false, turnsUsed := 2, maxTurns := 2 },
       [(roomId,
         { turnsUsed := 2, dispatchCount := 0, maxTurns := 2
           maxDispatch := cfg.maxDispatchPerCycle.getD 2
           ttlMs := cfg.cycleTtlSeconds * 1000, createdAt := t0
           lastInboundAt := t0, lastActivityAt := t0 })]) := by
    simp [tryConsumeTurn, getCycle, assocGet, assocSet, hmax, hpos]
  have h4 : (registerInboundExternal
      [(roomId,
        { turnsUsed := 2, dispatchCount := 0, maxTurns := 2
          maxDispatch := cfg.maxDispatchPerCycle.getD 2
          ttlMs := cfg.cycleTtlSeconds * 1000, createdAt := t0
          lastInboundAt := t0, lastActivityAt := t0 })] roomId cfg t1).1.turnsUsed
      = 0 := by
    by_cases hexp : t1 - t0 > cfg.cycleTtlSeconds * 1000 <;>
      simp [registerInboundExternal, getCycle, assocGet, assocSet, hmax, hexp, hge]
  refine ⟨?_, ?_, ?_, ?_⟩
  · rw [h0]
    exact congrArg Prod.fst h1
  · rw [h0, h1]
    exact congrArg Prod.fst h2
  · rw [h0, h1, h2]
    exact congrArg Prod.fst h3
  · rw [h0, h1, h2, h3]
    exact h4

/-- Witness for C5 at concrete times and the minimum-TTL config. -/
theorem C5_witness :
    (tryConsumeTurn (tryConsumeTurn (tryConsumeTurn
        (registerInboundExternal [] "room-1"
          { cycleTtlSeconds := 30, maxTurnsPerCycle := 2 } 1000).2
        "room-1" { cycleTtlSeconds := 30, maxTurnsPerCycle := 2 } 1000).2
        "room-1" { cycleTtlSeconds := 30, maxTurnsPerCycle := 2 } 1000).2
        "room-1" { cycleTtlSeconds := 30, maxTurnsPerCycle := 2 } 1000).1
      = { ok := false, turnsUsed := 2, maxTurns := 2 } :=
  (C5_turn_budget_and_reset { cycleTtlSeconds := 30, maxTurnsPerCycle := 2 }
    "room-1" 1000 7000 rfl (by decide) (by decide)).2.2.1

-- ─── Task-board inversion and status lemmas ───

theorem createTask_created_inv {st : RoomTasks} {roomId : String}
    {p : CreateParams} {maxA : Nat} {now : Int} {lockOk : Bool}
    {task : Task} {st' : RoomTasks}
    (h : createTask st roomId p maxA now lockOk = (.created task, st')) :
    roomId ≠ "" ∧ asString p.taskId ≠ "" ∧ lockOk = true ∧
    st.active.length < maxA ∧
    getTask st (asString p.taskId) = none ∧
    task = { taskId := asString p.taskId, summary := asString p.summary
             status := strOrDefault p.status "create"
             createdBy := strOrDefault p.createdBy "unknown"
             createdAt := now, updatedAt := now, closedAt := 0, slots := []
             globalHistory := [{ actor := strOrDefault p.createdBy "unknown"
                                 status := strOrDefault p.status "create"
                                 note := asString p.note, atMs := now }] } ∧
    st' = { st with
            active := assocSet st.active (sanitizeTaskId (asString p.taskId)) task
            board := assocSet st.board (asString p.taskId)
              { status := task.status, summary := task.summary } } := by
  by_cases hguard : roomId = "" ∨ asString p.taskId = ""
  · simp [createTask, hguard] at h
  · cases lockOk with
    | false => simp [createTask, hguard] at h
    | true =>
        by_cases hlen : st.active.length ≥ maxA
        · simp [createTask, hguard, hlen] at h
        · cases hget : getTask st (asString p.taskId) with
          | some existing => simp [createTask, hguard, hlen, hget] at h
          | none =>
              simp [createTask, hguard, hlen, hget] at h
              push_neg at hguard
              obtain ⟨htask, hst⟩ := h
              subst htask
              subst hst
              exact ⟨hguard.1, hguard.2, rfl, by omega, rfl, rfl, rfl⟩

/-- C7 counterexample: with `maxActiveTasks = 1` (any board already at
capacity behaves the same), a successful `createTask` followed by a
second `createTask` with the same taskId returns
`max_active_reached`, not `already_exists`, because the capacity
check runs before the duplicate check. -/
theorem C7_counterexample :
    (createTask rtEmpty "room-1" cParamsEx 1 100 true).1.ok = true ∧
    (createTask (createTask rtEmpty "room-1" cParamsEx 1 100 true).2 "room-1"
        cParamsEx 1 200 true).1 = .maxActiveReached 1 := by decide

/-- C7 (amended): a successful `createTask` followed immediately by a
second `createTask` with the same taskId returns `ok = false` with
reason `already_exists` carrying the original task, and leaves the
room state unchanged with the original task's `globalHistory` of
length exactly 1 — provided the active-task count after the first
create is still below the `maxActiveTasks` ceiling (otherwise the
earlier `max_active_reached` check fires first). -/
theorem C7_duplicate_create (st : RoomTasks) (roomId : String)
    (p₁ p₂ : CreateParams) (maxA : Nat) (t₁ t₂ : Int)
    (task₁ : Task) (st₁ : RoomTasks)
    (h1 : createTask st roomId p₁ maxA t₁ true = (.created task₁, st₁))
    (hid : asString p₂.taskId = asString p₁.taskId)
    (hcap : st₁.active.length < maxA) :
    createTask st₁ roomId p₂ maxA t₂ true = (.alreadyExists task₁, st₁) ∧
    task₁.globalHistory.length = 1 ∧
    getTask st₁ (asString p₂.taskId) = some task₁ := by
  obtain ⟨hroom, htid, -, -, -, htask, hst⟩ := createTask_created_inv h1
  have hget : getTask st₁ (asString p₂.taskId) = some task₁ := by
    rw [hid, hst]
    simp [getTask, assocGet_assocSet_self, migrateLegacyTask]
  have hguard : ¬ (roomId = "" ∨ asString p₂.taskId = "") := by
    push_neg
    exact ⟨hroom, by rw [hid]; exact htid⟩
  have hlen : ¬ (st₁.active.length ≥ maxA) := by omega
  refine ⟨?_, ?_, hget⟩
  · simp [createTask, hguard, hlen, hget]
  · rw [htask]
    rfl

/-- Witness for C7 (amended) at the concrete duplicate-create
scenario with the default ceiling of 10. -/
theorem C7_witness :
    createTask
        { active := [("T-1",
            { taskId := "T-1", summary := "fix the bug", status := "create"
              createdBy := "main", createdAt := 100, updatedAt := 100
              closedAt := 0, slots := []
              globalHistory := [{ actor := "main", status := "create"
                                  note := "urgent", atMs := 100 }] })]
          history := []
          board := [("T-1", { status := "create", summary := "fix the bug" })] }
        "room-1" cParamsEx 10 200 true
      = (.alreadyExists
          { taskId := "T-1", summary := "fix the bug", status := "create"
            createdBy := "main", createdAt := 100, updatedAt := 100
            closedAt := 0, slots := []
            globalHistory := [{ actor := "main", status := "create"
                                note := "urgent", atMs := 100 }] },
         { active := [("T-1",
             { taskId := "T-1", summary := "fix the bug", status := "create"
               createdBy := "main", createdAt := 100, updatedAt := 100
               closedAt := 0, slots := []
               globalHistory := [{ actor := "main", status := "create"
                                   note := "urgent", atMs := 100 }] })]
           history := []
           board := [("T-1", { status := "create", summary := "fix the bug" })] }) :=
  (C7_duplicate_create rtEmpty "room-1" cParamsEx cParamsEx 10 100 200
    { taskId := "T-1", summary := "fix the bug", status := "create"
      createdBy := "main", createdAt := 100, updatedAt := 100
      closedAt := 0, slots := []
      globalHistory := [{ actor := "main", status := "create"
                          note := "urgent", atMs := 100 }] }
    { active := [("T-1",
        { taskId := "T-1", summary := "fix the bug", status := "create"
          createdBy := "main", createdAt := 100, updatedAt := 100
          closedAt := 0, slots := []
          globalHistory := [{ actor := "main", status := "create"
                              note := "urgent", atMs := 100 }] })]
      history := []
      board := [("T-1", { status := "create", summary := "fix the bug" })] }
    (by decide) (by decide) (by decide)).1

theorem updateTask_updated_inv {st : RoomTasks} {roomId : String}
    {p : UpdateParams} {now : Int} {lockOk : Bool} {c : Bool} {tk : Task}
    {st' : RoomTasks}
    (h : updateTask st roomId p now lockOk = (.updated c tk, st')) :
    roomId ≠ "" ∧ asString p.taskId ≠ "" ∧ lowerStr (asString p.status) ≠ "" ∧
    lockOk = true ∧
    ∃ task, getTask st (asString p.taskId) = some task ∧
      (let next := applyUpdate task (strOrDefault p.actor "unknown")
          (lowerStr (asString p.status)) (asString p.note) now
       (isTerminal next.status = true ∧ c = true ∧
          tk = { next with closedAt := now } ∧
          st' = { st with
                  active := assocDel st.active (sanitizeTaskId (asString p.taskId))
                  history := st.history ++ [{ next with closedAt := now }]
                  board := assocDel st.board (asString p.taskId) }) ∨
       (isTerminal next.status = false ∧ c = false ∧ tk = next ∧
          st' = { st with
                  active := assocSet st.active
                    (sanitizeTaskId (asString p.taskId)) next
                  board := assocSet st.board (asString p.taskId)
                    { status := next.status, summary := next.summary } })) := by
  by_cases hguard : roomId = "" ∨ asString p.taskId = "" ∨ lowerStr (asString p.status) = ""
  · simp [updateTask, hguard] at h
  · cases lockOk with
    | false => simp [updateTask, hguard] at h
    | true =>
        cases hget : getTask st (asString p.taskId) with
        | none => simp [updateTask, hguard, hget] at h
        | some task =>
            push_neg at hguard
            by_cases hterm : isTerminal (applyUpdate task
                (strOrDefault p.actor "unknown") (lowerStr (asString p.status))
                (asString p.note) now).status = true
            · simp [updateTask, hguard, hget, hterm] at h
              obtain ⟨⟨hc, htk⟩, hst⟩ := h
              exact ⟨hguard.1, hguard.2.1, hguard.2.2, rfl, task, rfl,
                Or.inl ⟨hterm, hc, htk.symm, hst.symm⟩⟩
            · rw [Bool.not_eq_true] at hterm
              simp [updateTask, hguard, hget, hterm] at h
              obtain ⟨⟨hc, htk⟩, hst⟩ := h
              exact ⟨hguard.1, hguard.2.1, hguard.2.2, rfl, task, rfl,
                Or.inr ⟨hterm, hc, htk.symm, hst.symm⟩⟩

theorem applyUpdate_status (task : Task) (actor status note : String) (now : Int) :
    (applyUpdate task actor status note now).status
      = deriveTaskStatus (applyUpdate task actor status note now).slots := rfl

theorem applyUpdate_slots_ne_nil (task : Task) (actor status note : String)
    (now : Int) : (applyUpdate task actor status note now).slots ≠ [] := by
  simp only [applyUpdate]
  exact assocSet_ne_nil task.slots actor _

theorem applyUpdate_get_ne (task : Task) (actor status note : String)
    (now : Int) (a : String) (h : actor ≠ a) :
    assocGet (applyUpdate task actor status note now).slots a
      = assocGet task.slots a := by
  simp only [applyUpdate]
  exact assocGet_assocSet_ne task.slots actor a _ h

theorem applyUpdate_get_self (task : Task) (actor status note : String)
    (now : Int) :
    (assocGet (applyUpdate task actor status note now).slots actor).isSome
      = true := by
  simp only [applyUpdate]
  rw [assocGet_assocSet_self]
  rfl

theorem all_slotStat_iff (slots : List (String × Slot)) (p : String → Bool) :
    (((slots.map fun q => slotStat q.2).all p) = true) ↔
      ∀ q ∈ slots, p (slotStat q.2) = true := by
  rw [List.all_eq_true]
  exact List.forall_mem_map

theorem any_slotStat_iff (slots : List (String × Slot)) (p : String → Bool) :
    (((slots.map fun q => slotStat q.2).any p) = true) ↔
      ∃ q ∈ slots, p (slotStat q.2) = true := by
  rw [List.any_eq_true]
  constructor
  · rintro ⟨x, hx, hp⟩
    obtain ⟨q, hq, rfl⟩ := List.mem_map.mp hx
    exact ⟨q, hq, hp⟩
  · rintro ⟨q, hq, hp⟩
    exact ⟨slotStat q.2, List.mem_map.mpr ⟨q, hq, rfl⟩, hp⟩

theorem derive_all_terminal (slots : List (String × Slot)) (hne : slots ≠ [])
    (hall : ∀ q ∈ slots, slotStat q.2 = "done" ∨ slotStat q.2 = "review_ok") :
    deriveTaskStatus slots = "done" := by
  have hA : ((slots.map fun q => slotStat q.2).all
      fun s => s = "done" || s = "review_ok") = true := by
    rw [all_slotStat_iff]
    intro q hq
    rcases hall q hq with h | h <;> simp [h]
  simp [deriveTaskStatus, hne, hA]

theorem derive_done_inv (slots : List (String × Slot))
    (h : deriveTaskStatus slots = "done") :
    slots ≠ [] ∧ ∀ q ∈ slots, slotStat q.2 = "done" ∨ slotStat q.2 = "review_ok" := by
  by_cases hne : slots = []
  · rw [hne] at h
    simp [deriveTaskStatus] at h
  · refine ⟨hne, ?_⟩
    by_cases hA : ((slots.map fun q => slotStat q.2).all
        fun s => s = "done" || s = "review_ok") = true
    · intro q hq
      have := (all_slotStat_iff slots _).mp hA q hq
      simpa using this
    · rw [Bool.not_eq_true] at hA
      exfalso
      by_cases hB : ((slots.map fun q => slotStat q.2).any
          fun s => s = "blocked") = true
      · simp [deriveTaskStatus, hne, hA, hB] at h
      · rw [Bool.not_eq_true] at hB
        by_cases hP : ((slots.map fun q => slotStat q.2).any
            fun s => s = "in_progress") = true
        · simp [deriveTaskStatus, hne, hA, hB, hP] at h
        · rw [Bool.not_eq_true] at hP
          simp [deriveTaskStatus, hne, hA, hB, hP] at h

theorem not_all_terminal_false (slots : List (String × Slot))
    (hnall : ¬ ∀ q ∈ slots, slotStat q.2 = "done" ∨ slotStat q.2 = "review_ok") :
    ((slots.map fun q => slotStat q.2).all
      fun s => s = "done" || s = "review_ok") = false := by
  rw [← Bool.not_eq_true]
  intro hx
  refine hnall fun q hq => ?_
  have := (all_slotStat_iff slots _).mp hx q hq
  simpa using this

theorem no_blocked_false (slots : List (String × Slot))
    (hnb : ¬ ∃ q ∈ slots, slotStat q.2 = "blocked") :
    ((slots.map fun q => slotStat q.2).any fun s => s = "blocked") = false := by
  rw [← Bool.not_eq_true]
  intro hx
  obtain ⟨q, hq, hp⟩ := (any_slotStat_iff slots _).mp hx
  exact hnb ⟨q, hq, by simpa using hp⟩

theorem no_in_progress_false (slots : List (String × Slot))
    (hnp : ¬ ∃ q ∈ slots, slotStat q.2 = "in_progress") :
    ((slots.map fun q => slotStat q.2).any fun s => s = "in_progress") = false := by
  rw [← Bool.not_eq_true]
  intro hx
  obtain ⟨q, hq, hp⟩ := (any_slotStat_iff slots _).mp hx
  exact hnp ⟨q, hq, by simpa using hp⟩

theorem derive_blocked (slots : List (String × Slot)) (hne : slots ≠ [])
    (hnall : ¬ ∀ q ∈ slots, slotStat q.2 = "done" ∨ slotStat q.2 = "review_ok")
    (hb : ∃ q ∈ slots, slotStat q.2 = "blocked") :
    deriveTaskStatus slots = "blocked" := by
  have hA := not_all_terminal_false slots hnall
  have hB : ((slots.map fun q => slotStat q.2).any
      fun s => s = "blocked") = true := by
    rw [any_slotStat_iff]
    obtain ⟨q, hq, hs⟩ := hb
    exact ⟨q, hq, by simp [hs]⟩
  simp [deriveTaskStatus, hne, hA, hB]

theorem derive_in_progress (slots : List (String × Slot)) (hne : slots ≠ [])
    (hnall : ¬ ∀ q ∈ slots, slotStat q.2 = "done" ∨ slotStat q.2 = "review_ok")
    (hnb : ¬ ∃ q ∈ slots, slotStat q.2 = "blocked")
    (hp : ∃ q ∈ slots, slotStat q.2 = "in_progress") :
    deriveTaskStatus slots = "in_progress" := by
  have hA := not_all_terminal_false slots hnall
  have hB := no_blocked_false slots hnb
  have hP : ((slots.map fun q => slotStat q.2).any
      fun s => s = "in_progress") = true := by
    rw [any_slotStat_iff]
    obtain ⟨q, hq, hs⟩ := hp
    exact ⟨q, hq, by simp [hs]⟩
  simp [deriveTaskStatus, hne, hA, hB, hP]

theorem derive_ack (slots : List (String × Slot)) (hne : slots ≠ [])
    (hnall : ¬ ∀ q ∈ slots, slotStat q.2 = "done" ∨ slotStat q.2 = "review_ok")
    (hnb : ¬ ∃ q ∈ slots, slotStat q.2 = "blocked")
    (hnp : ¬ ∃ q ∈ slots, slotStat q.2 = "in_progress") :
    deriveTaskStatus slots = "ack" := by
  have hA := not_all_terminal_false slots hnall
  have hB := no_blocked_false slots hnb
  have hP := no_in_progress_false slots hnp
  simp [deriveTaskStatus, hne, hA, hB, hP]

/-- C2: for any two successful `updateTask` calls on the same task by
two different (normalized) actors, the resulting task's overall
status follows the first-match-wins precedence over its slots: all
slots `done`/`review_ok` gives `done`; else any `blocked` gives
`blocked`; else any `in_progress` gives `in_progress`; else `ack`; a
slot set that is empty derives `create` (impossible after an update).
The two actors hold independent slots: the second update leaves the
first actor's slot exactly as the first update wrote it and adds its
own.  The status is `done` iff every slot present is terminal, and
when it is, the result is flagged closed and the task is archived
into the history set and removed from the active set and board
index.  (`Nodup` on the stored keys reflects that the active
directory and board index cannot hold duplicate names.) -/
theorem C2_update_status_and_slots
    (st : RoomTasks) (roomId : String) (p₁ p₂ : UpdateParams) (t₁ t₂ : Int)
    (c₁ c₂ : Bool) (tk₁ tk₂ : Task) (st₁ st₂ : RoomTasks)
    (hnda : (st.active.map Prod.fst).Nodup)
    (hndb : (st.board.map Prod.fst).Nodup)
    (h1 : updateTask st roomId p₁ t₁ true = (.updated c₁ tk₁, st₁))
    (h2 : updateTask st₁ roomId p₂ t₂ true = (.updated c₂ tk₂, st₂))
    (hid : asString p₂.taskId = asString p₁.taskId)
    (hact : strOrDefault p₂.actor "unknown" ≠ strOrDefault p₁.actor "unknown") :
    tk₂.slots ≠ [] ∧
    tk₂.status = deriveTaskStatus tk₂.slots ∧
    deriveTaskStatus ([] : List (String × Slot)) = "create" ∧
    ((∀ q ∈ tk₂.slots, slotStat q.2 = "done" ∨ slotStat q.2 = "review_ok") →
      tk₂.status = "done") ∧
    ((¬ ∀ q ∈ tk₂.slots, slotStat q.2 = "done" ∨ slotStat q.2 = "review_ok") →
      (∃ q ∈ tk₂.slots, slotStat q.2 = "blocked") → tk₂.status = "blocked") ∧
    ((¬ ∀ q ∈ tk₂.slots, slotStat q.2 = "done" ∨ slotStat q.2 = "review_ok") →
      (¬ ∃ q ∈ tk₂.slots, slotStat q.2 = "blocked") →
      (∃ q ∈ tk₂.slots, slotStat q.2 = "in_progress") →
      tk₂.status = "in_progress") ∧
    ((¬ ∀ q ∈ tk₂.slots, slotStat q.2 = "done" ∨ slotStat q.2 = "review_ok") →
      (¬ ∃ q ∈ tk₂.slots, slotStat q.2 = "blocked") →
      (¬ ∃ q ∈ tk₂.slots, slotStat q.2 = "in_progress") → tk₂.status = "ack") ∧
    (tk₂.status = "done" ↔
      ∀ q ∈ tk₂.slots, slotStat q.2 = "done" ∨ slotStat q.2 = "review_ok") ∧
    assocGet tk₂.slots (strOrDefault p₁.actor "unknown")
      = assocGet tk₁.slots (strOrDefault p₁.actor "unknown") ∧
    (assocGet tk₁.slots (strOrDefault p₁.actor "unknown")).isSome = true ∧
    (assocGet tk₂.slots (strOrDefault p₂.actor "unknown")).isSome = true ∧
    (tk₂.status = "done" →
      c₂ = true ∧
      assocGet st₂.active (sanitizeTaskId (asString p₂.taskId)) = none ∧
      tk₂ ∈ st₂.history ∧
      assocGet st₂.board (asString p₂.taskId) = none) := by
  obtain ⟨hr1, htid1, hs1, -, task, hget1, hbr1⟩ := updateTask_updated_inv h1
  obtain ⟨hr2, htid2, hs2, -, task₂, hget2, hbr2⟩ := updateTask_updated_inv h2
  rcases hbr1 with ⟨hterm1, hc1, htk1, hst1⟩ | ⟨hterm1, hc1, htk1, hst1⟩
  · -- first update closed the task: the second could not have found it
    exfalso
    rw [hst1, hid] at hget2
    have hnone : assocGet
        (assocDel st.active (sanitizeTaskId (asString p₁.taskId)))
        (sanitizeTaskId (asString p₁.taskId)) = none :=
      assocGet_assocDel_self st.active _ hnda
    simp [getTask, hnone] at hget2
  · -- first update persisted; the second read back exactly tk₁
    subst htk1
    have htask₂ : task₂ = applyUpdate task (strOrDefault p₁.actor "unknown")
        (lowerStr (asString p₁.status)) (asString p₁.note) t₁ := by
      rw [hst1, hid] at hget2
      simpa [getTask, assocGet_assocSet_self, migrateLegacyTask] using hget2.symm
    subst htask₂
    have hnda₁ : (st₁.active.map Prod.fst).Nodup := by
      rw [hst1]
      exact nodup_keys_assocSet st.active _ _ hnda
    have hndb₁ : (st₁.board.map Prod.fst).Nodup := by
      rw [hst1]
      exact nodup_keys_assocSet st.board _ _ hndb
    rcases hbr2 with ⟨hterm2, hc2, htk2, hst2⟩ | ⟨hterm2, hc2, htk2, hst2⟩ <;>
      subst hst2
    · -- second update terminal: task archived
      have hsl : tk₂.slots = (applyUpdate (applyUpdate task (strOrDefault p₁.actor "unknown")
          (lowerStr (asString p₁.status)) (asString p₁.note) t₁)
        (strOrDefault p₂.actor "unknown") (lowerStr (asString p₂.status))
        (asString p₂.note) t₂).slots := by rw [htk2]
      have hstt : tk₂.status = (applyUpdate (applyUpdate task (strOrDefault p₁.actor "unknown")
          (lowerStr (asString p₁.status)) (asString p₁.note) t₁)
        (strOrDefault p₂.actor "unknown") (lowerStr (asString p₂.status))
        (asString p₂.note) t₂).status := by rw [htk2]
      rw [hstt, hsl]
      refine ⟨applyUpdate_slots_ne_nil _ _ _ _ _, applyUpdate_status _ _ _ _ _, by decide,
        fun hall => derive_all_terminal _ (applyUpdate_slots_ne_nil _ _ _ _ _) hall,
        fun hnall hb => derive_blocked _ (applyUpdate_slots_ne_nil _ _ _ _ _) hnall hb,
        fun hnall hnb hp =>
          derive_in_progress _ (applyUpdate_slots_ne_nil _ _ _ _ _) hnall hnb hp,
        fun hnall hnb hnp =>
          derive_ack _ (applyUpdate_slots_ne_nil _ _ _ _ _) hnall hnb hnp,
        ⟨fun hdone => (derive_done_inv _ hdone).2,
         fun hall => derive_all_terminal _ (applyUpdate_slots_ne_nil _ _ _ _ _) hall⟩,
        applyUpdate_get_ne _ _ _ _ _ _ hact,
        applyUpdate_get_self _ _ _ _ _,
        applyUpdate_get_self _ _ _ _ _,
        fun _ => ⟨hc2, ?_, ?_, ?_⟩⟩
      · exact assocGet_assocDel_self st₁.active _ hnda₁
      · rw [htk2]
        simp
      · exact assocGet_assocDel_self st₁.board _ hndb₁
    · -- second update non-terminal: the derived status cannot be done
      have hsl : tk₂.slots = (applyUpdate (applyUpdate task (strOrDefault p₁.actor "unknown")
          (lowerStr (asString p₁.status)) (asString p₁.note) t₁)
        (strOrDefault p₂.actor "unknown") (lowerStr (asString p₂.status))
        (asString p₂.note) t₂).slots := by rw [htk2]
      have hstt : tk₂.status = (applyUpdate (applyUpdate task (strOrDefault p₁.actor "unknown")
          (lowerStr (asString p₁.status)) (asString p₁.note) t₁)
        (strOrDefault p₂.actor "unknown") (lowerStr (asString p₂.status))
        (asString p₂.note) t₂).status := by rw [htk2]
      rw [hstt, hsl]
      refine ⟨applyUpdate_slots_ne_nil _ _ _ _ _, applyUpdate_status _ _ _ _ _, by decide,
        fun hall => derive_all_terminal _ (applyUpdate_slots_ne_nil _ _ _ _ _) hall,
        fun hnall hb => derive_blocked _ (applyUpdate_slots_ne_nil _ _ _ _ _) hnall hb,
        fun hnall hnb hp =>
          derive_in_progress _ (applyUpdate_slots_ne_nil _ _ _ _ _) hnall hnb hp,
        fun hnall hnb hnp =>
          derive_ack _ (applyUpdate_slots_ne_nil _ _ _ _ _) hnall hnb hnp,
        ⟨fun hdone => (derive_done_inv _ hdone).2,
         fun hall => derive_all_terminal _ (applyUpdate_slots_ne_nil _ _ _ _ _) hall⟩,
        applyUpdate_get_ne _ _ _ _ _ _ hact,
        applyUpdate_get_self _ _ _ _ _,
        applyUpdate_get_self _ _ _ _ _,
        fun hdone => absurd
          (show isTerminal (applyUpdate (applyUpdate task (strOrDefault p₁.actor "unknown")
          (lowerStr (asString p₁.status)) (asString p₁.note) t₁)
        (strOrDefault p₂.actor "unknown") (lowerStr (asString p₂.status))
        (asString p₂.note) t₂).status = true by rw [hdone]; decide)
          (by rw [hterm2]; decide)⟩

/-- Witness for C2 at the concrete two-actor scenario: after builder
and researcher each updated task T-1, the researcher holds a slot of
their own. -/
theorem C2_witness :
    (assocGet taskAfter2.slots (strOrDefault "researcher" "unknown")).isSome
      = true :=
  (C2_update_status_and_slots rtScenario "room-1" upBuilder upResearcher
    300 400 false false taskAfter1 taskAfter2 rtAfter1 rtAfter2
    (by decide) (by decide) (by decide) (by decide) (by decide)
    (by decide)).2.2.2.2.2.2.2.2.2.2.1

end TeamChat
